import Mathlib

/-!
Verification of the distributed-coordination core of the AWS Health Events
Analyzer (Python sources: `src/bedrock_analyzer.py`, `src/email_queue_manager.py`,
`src/shared_utils.py`, `email_sender.py`).

Each Python function relevant to the checked properties is translated into an
executable Lean definition.  External effects (DynamoDB reads/writes, SQS
sends, Bedrock invocations) are modelled by explicit state passing and by
per-record outcome oracles: a record environment says, for each external call
the handler makes while processing that record, whether the call succeeds or
which categorized error it raises.  Python integers are modelled as `Nat`
where the source arithmetic never goes negative along the compared paths
(noted at each definition), and Python dicts either as association lists
(insertion order and key uniqueness match Python dict semantics) or as fixed
records of `Option`-valued fields when the function touches a fixed set of
keys.
-/

namespace HealthEvents

/-! ## Rate limiter (`bedrock_analyzer.check_bedrock_rate_limit`,
`bedrock_analyzer.update_rate_limit_backoff`)

The limiter state is the singleton DynamoDB row
`{last_call_time, calls_this_minute, max_calls_per_minute}`.  Timestamps are
`Nat` seconds; the only comparison performed is
`current_time - last_call_time >= 60`, and `Nat` truncating subtraction gives
the same boolean as Python's signed subtraction there (a negative difference
and a truncated-to-zero difference are both `< 60`). -/

structure RLState where
  last_call_time : Nat
  calls_this_minute : Nat
  max_calls_per_minute : Nat
  deriving DecidableEq, Repr

/-- One sequential invocation of `check_bedrock_rate_limit` against the
limiter row (`none` = the row does not exist yet).  Returns the allow/deny
decision and the updated row, following the source line by line: missing row
is initialized with `calls_this_minute = 0`, `max_calls_per_minute = 20` and
the call is allowed; an elapsed window resets the counter to zero and allows;
a counter below the ceiling is incremented and the call allowed; otherwise
the call is denied and nothing is written. -/
def check_bedrock_rate_limit (s : Option RLState) (now : Nat) : Bool × Option RLState :=
  match s with
  | none => (true, some ⟨now, 0, 20⟩)
  | some st =>
    if now - st.last_call_time ≥ 60 then
      (true, some { st with calls_this_minute := 0, last_call_time := now })
    else if st.calls_this_minute < st.max_calls_per_minute then
      (true, some { st with calls_this_minute := st.calls_this_minute + 1 })
    else
      (false, some st)

/-- Sequential simulation of a list of call attempts at the given timestamps;
returns how many were allowed and the final limiter row. -/
def rl_simulate (s : Option RLState) : List Nat → Nat × Option RLState
  | [] => (0, s)
  | t :: ts =>
    let r := check_bedrock_rate_limit s t
    let rest := rl_simulate r.2 ts
    ((if r.1 then 1 else 0) + rest.1, rest.2)

/-- The ceiling update the backoff's update expression spells out:
`SET max_calls_per_minute = GREATEST(:min_val, max_calls_per_minute - :dec)`
with `:min_val = 2` and `:dec = 2`, i.e. `max 2 (m - 2)` (`Nat` truncating
subtraction agrees with the signed expression because the outer `max` with
`2` absorbs any negative difference).  DynamoDB update expressions provide
no `GREATEST` function, so this value is never actually written — see
`update_rate_limit_backoff`. -/
def backoff_intended_update (m : Nat) : Nat :=
  max 2 (m - 2)

/-- `update_rate_limit_backoff` as the source actually behaves on the
ceiling: the `update_item` call names `GREATEST`, which is not part of the
DynamoDB update-expression grammar (`SET` admits only `if_not_exists`,
`list_append` and `+`/`-`), so the call raises a validation error on every
invocation; the surrounding `except Exception` arm catches and logs it, and
the limiter row — in particular `max_calls_per_minute` — is left
unchanged. -/
def update_rate_limit_backoff (m : Nat) : Nat :=
  m

/-! ## Result Store rows and completion check
(`shared_utils.get_workflow_results`, `email_queue_manager.check_workflow_completion`)

A DynamoDB item in the workflow-results table is keyed by
`(workflow_id, account_id)`.  The idempotency marker written by
`mark_emails_as_queued` lives in the same table as the row with
`account_id = "EMAIL_QUEUED_MARKER"`; its `result_data` carries no
`email_mapping` key, so `result_data.get('email_mapping')` yields `None`,
modelled as `email_mapping = none`. -/

structure Item where
  workflow_id : String
  account_id : String
  email_mapping : Option String
  deriving DecidableEq, Repr

/-- The `account_id` under which `mark_emails_as_queued` stores the
idempotency marker item. -/
def EMAIL_QUEUED_MARKER : String := "EMAIL_QUEUED_MARKER"

/-- The DynamoDB query of `get_workflow_results`: every item of the table
whose partition key equals the workflow id (marker items included). -/
def get_workflow_results (wf : String) (table : List Item) : List Item :=
  table.filter (fun it => it.workflow_id = wf)

structure CompletionStatus where
  all_complete : Bool
  completed_count : Nat
  total_accounts : Nat
  results : List Item
  deriving DecidableEq, Repr

/-- `check_workflow_completion`: counts the rows returned by
`get_workflow_results` (its `completed_count` is the plain `len` of that
list) and reports `all_complete` when the count has reached
`total_accounts`; the result rows are passed along only in the complete
case.  The Python `except` arm (store unavailable, reported as incomplete
with count 0) is unreachable in this effect-free model. -/
def check_workflow_completion (wf : String) (total : Nat) (table : List Item) :
    CompletionStatus :=
  let results := get_workflow_results wf table
  let completed_count := results.length
  { all_complete := decide (completed_count ≥ total)
    completed_count := completed_count
    total_accounts := total
    results := if completed_count ≥ total then results else [] }

/-! ## Notification dispatch (`email_queue_manager.queue_email_notifications`,
`group_results_by_email`, `check_emails_already_queued`,
`mark_emails_as_queued`)

The coordinator-visible state is the marker's presence in the results table
plus the SQS queue contents.  SQS sends and the conditional marker write are
modelled as perfect (the claims under check concern the sequential
happy-path protocol, not store outages). -/

structure NotifMsg where
  email_type : String
  email_address : Option String
  recipients : List String
  account_ids : List String
  deriving DecidableEq, Repr

/-- `group_results_by_email`: fold the result rows into per-email groups
(insertion-ordered, as a Python `defaultdict(list)` iterated later), keeping
only rows whose `result_data` carries an email mapping. -/
def group_results_by_email (all_results : List Item) : List (String × List Item) :=
  all_results.foldl
    (fun groups r =>
      match r.email_mapping with
      | some em =>
        if groups.any (fun g => g.1 = em) then
          groups.map (fun g => if g.1 = em then (g.1, g.2 ++ [r]) else g)
        else
          groups ++ [(em, [r])]
      | none => groups)
    []

/-- The notification message set one dispatching invocation sends: one
account-specific message per email group (skipped entirely when
`TEST_MASTER_EMAIL_ONLY` is set) followed by one master-report message when
the default recipient list is non-empty. -/
def notification_messages (wf : String) (all_results : List Item)
    (test_master_only : Bool) (default_recipients : List String) : List NotifMsg :=
  (if test_master_only then []
   else (group_results_by_email all_results).map
     (fun g => { email_type := "account_specific", email_address := some g.1,
                 recipients := [], account_ids := g.2.map (·.account_id) }))
  ++ (if default_recipients ≠ [] then
        [{ email_type := "master_report", email_address := none,
           recipients := default_recipients,
           account_ids := all_results.map (·.account_id) }]
      else [])

/-- Coordinator-visible mutable state for the workflow: whether the
`EMAIL_QUEUED_MARKER` item exists in the results table, and the messages on
the email notification queue. -/
structure QState where
  markerPresent : Bool
  queue : List NotifMsg
  deriving DecidableEq, Repr

/-- Result dictionary of `queue_email_notifications`. -/
structure QueueEmailRes where
  total_emails_queued : Nat
  already_queued : Bool
  race_condition_detected : Bool
  deriving DecidableEq, Repr

/-- `check_emails_already_queued`: a `get_item` on the marker key. -/
def check_emails_already_queued (s : QState) : Bool :=
  s.markerPresent

/-- `mark_emails_as_queued`: conditional `put_item` of the marker
(`attribute_not_exists(workflow_id)`), returning `false` when the
conditional check fails because the marker already exists. -/
def mark_emails_as_queued (s : QState) : Bool × QState :=
  if s.markerPresent then (false, s)
  else (true, { s with markerPresent := true })

/-- `queue_email_notifications`: if the marker is already present, return the
`already_queued` result with zero emails queued and touch nothing; otherwise
send every notification message and then write the marker, reporting a
detected race when the conditional marker write loses. -/
def queue_email_notifications (wf : String) (all_results : List Item)
    (test_master_only : Bool) (default_recipients : List String)
    (s : QState) : QueueEmailRes × QState :=
  if check_emails_already_queued s then
    ({ total_emails_queued := 0, already_queued := true,
       race_condition_detected := false }, s)
  else
    let msgs := notification_messages wf all_results test_master_only default_recipients
    let s1 := { s with queue := s.queue ++ msgs }
    let (marked, s2) := mark_emails_as_queued s1
    ({ total_emails_queued := msgs.length, already_queued := false,
       race_condition_detected := !marked }, s2)

/-- Iterated sequential invocation of `queue_email_notifications` with the
same arguments, collecting each invocation's result in order. -/
def run_queue_invocations (wf : String) (all_results : List Item)
    (test_master_only : Bool) (default_recipients : List String) :
    Nat → QState → List QueueEmailRes × QState
  | 0, s => ([], s)
  | k + 1, s =>
    let step := queue_email_notifications wf all_results test_master_only
      default_recipients s
    let rest := run_queue_invocations wf all_results test_master_only
      default_recipients k step.2
    (step.1 :: rest.1, rest.2)

/-- The distinguished control-flow error of the coordinator
(`shared_utils.IncompleteWorkflowException`), kept apart from generic
errors. -/
inductive ManagerError where
  | incompleteWorkflow
  deriving DecidableEq, Repr

/-- `email_queue_manager.lambda_handler`: check completion first; below
`total_accounts`, raise `IncompleteWorkflowException` (re-raised untouched by
the handler's generic `except` arm) without dispatching anything; at or
above, dispatch through `queue_email_notifications`.  The state is returned
alongside so that "performs no dispatch" is observable. -/
def email_manager_handler (wf : String) (total : Nat) (table : List Item)
    (test_master_only : Bool) (default_recipients : List String)
    (s : QState) : Except ManagerError QueueEmailRes × QState :=
  let cs := check_workflow_completion wf total table
  if cs.all_complete then
    let (r, s1) := queue_email_notifications wf cs.results test_master_only
      default_recipients s
    (.ok r, s1)
  else
    (.error .incompleteWorkflow, s)

/-! ## AI Analysis Task (`bedrock_analyzer.lambda_handler`,
`get_message_retry_count`, `create_placeholder_analysis`)

Each consumed SQS record is handled by one pass of the loop body in
`lambda_handler`.  The external calls made while handling a record are
replaced by a per-record oracle (`BRecordEnv`): the parsed body, the
`ApproximateReceiveCount` attribute, the rate-limit decision, the outcome of
`analyze_with_bedrock`, and the outcome of each of the at most two
`store_workflow_result` calls the control flow can reach.  Exceptions raised
by a store call are categorized as the handler's `except` arms do:
`ClientError` with code `ThrottlingException`, any other `ClientError`, or a
generic exception. -/

/-- `get_message_retry_count`: `ApproximateReceiveCount` (default `'1'`,
`none` also standing for an unparsable attribute, which the `except` arm
turns into 0) minus one.  `Nat` subtraction is exact because the attribute
is at least 1 whenever present. -/
def get_message_retry_count (approxReceiveCount : Option Nat) : Nat :=
  match approxReceiveCount with
  | some c => c - 1
  | none => 0

/-- The analysis dictionary as far as the checked properties observe it. -/
structure AnalysisRes where
  risk_level : String
  manual_review_required : Bool
  bedrock_failure : Bool
  deriving DecidableEq, Repr

/-- Parsed body of an analysis task message (severities are the `severity`
fields of `processed_events`). -/
structure BMsg where
  account_id : String
  workflow_id : String
  severities : List String
  event_count : Nat
  email_mapping : Option String
  deriving DecidableEq, Repr

/-- `create_placeholder_analysis`: rule-based risk classification from the
event severities (critical events, then high events, then the event count),
always tagged `manual_review_required = True`; `bedrock_failure` is set
afterwards by the caller. -/
def create_placeholder_analysis (m : BMsg) : AnalysisRes :=
  let critical_events := m.severities.countP (fun s => s = "critical")
  let high_events := m.severities.countP (fun s => s = "high")
  let risk_level :=
    if critical_events > 0 then "Critical"
    else if high_events > 0 then "High"
    else if m.event_count > 5 then "Medium"
    else "Low"
  { risk_level := risk_level, manual_review_required := true,
    bedrock_failure := false }

/-- Outcome of one `store_workflow_result` call, categorized the way the
handler's `except` arms discriminate the raised exception. -/
inductive StoreOutcome where
  | ok
  | errThrottle
  | errClientOther
  | errGeneric
  deriving DecidableEq, Repr

/-- Oracle for one consumed record: `parsed = none` means `json.loads`
raised; `bedrockOk = some a` means `analyze_with_bedrock` returned `a`,
`none` that it raised (any exception, caught by the inner `try`);
`store1`/`store2` are the outcomes of the first and (when reached) second
`store_workflow_result` call. -/
structure BRecordEnv where
  parsed : Option BMsg
  approxReceiveCount : Option Nat
  rateAllow : Bool
  bedrockOk : Option AnalysisRes
  store1 : StoreOutcome
  store2 : StoreOutcome
  deriving DecidableEq, Repr

/-- Observable outcome of handling one record: whether its receipt handle was
appended to `successful_messages` (`ack`) or to the partial-batch failure
list (`requeued`), which analysis (if any) was successfully persisted, how
many store calls were attempted, whether Bedrock was invoked, and whether
`update_rate_limit_backoff` ran. -/
structure BStep where
  ack : Bool
  requeued : Bool
  stored : Option AnalysisRes
  storeAttempts : Nat
  aiCalled : Bool
  backoffApplied : Bool
  deriving DecidableEq, Repr

/-- Shared tail of the loop body from the first `store_workflow_result` call
onward, including the `except ClientError` / `except Exception` arms: a
throttling error applies the rate-limit backoff and either stores a
placeholder and acknowledges (retry count at least 2, acknowledging even
when that second store fails) or re-queues; any other error stores a
placeholder and acknowledges, acknowledging even when that second store
fails "to prevent infinite retry". -/
def store_and_settle (m : BMsg) (retry : Nat) (a : AnalysisRes) (aiCalled : Bool)
    (store1 store2 : StoreOutcome) : BStep :=
  match store1 with
  | .ok =>
    { ack := true, requeued := false, stored := some a, storeAttempts := 1,
      aiCalled := aiCalled, backoffApplied := false }
  | .errThrottle =>
    if retry ≥ 2 then
      let p := { create_placeholder_analysis m with bedrock_failure := true }
      match store2 with
      | .ok =>
        { ack := true, requeued := false, stored := some p, storeAttempts := 2,
          aiCalled := aiCalled, backoffApplied := true }
      | _ =>
        { ack := true, requeued := false, stored := none, storeAttempts := 2,
          aiCalled := aiCalled, backoffApplied := true }
    else
      { ack := false, requeued := true, stored := none, storeAttempts := 1,
        aiCalled := aiCalled, backoffApplied := true }
  | .errClientOther =>
    let p := { create_placeholder_analysis m with bedrock_failure := true }
    match store2 with
    | .ok =>
      { ack := true, requeued := false, stored := some p, storeAttempts := 2,
        aiCalled := aiCalled, backoffApplied := false }
    | _ =>
      { ack := true, requeued := false, stored := none, storeAttempts := 2,
        aiCalled := aiCalled, backoffApplied := false }
  | .errGeneric =>
    let p := { create_placeholder_analysis m with bedrock_failure := true }
    match store2 with
    | .ok =>
      { ack := true, requeued := false, stored := some p, storeAttempts := 2,
        aiCalled := aiCalled, backoffApplied := false }
    | _ =>
      { ack := true, requeued := false, stored := none, storeAttempts := 2,
        aiCalled := aiCalled, backoffApplied := false }

/-- The loop body of `bedrock_analyzer.lambda_handler` after `json.loads`
succeeded with body `m`.  A retry count at or above `max_retries = 3` skips
the AI call and persists a placeholder.  A denied rate-limit check re-queues
while the retry count is below `max_retries - 1 = 2`, else persists a
placeholder.  Otherwise the Bedrock analysis (or, when it raises, a
placeholder) is persisted.  Every persisted result flows through
`store_and_settle`. -/
def processBedrockParsed (env : BRecordEnv) (m : BMsg) : BStep :=
  if get_message_retry_count env.approxReceiveCount ≥ 3 then
    store_and_settle m (get_message_retry_count env.approxReceiveCount)
      { create_placeholder_analysis m with bedrock_failure := true } false
      env.store1 env.store2
  else if ¬ env.rateAllow then
    if get_message_retry_count env.approxReceiveCount < 2 then
      { ack := false, requeued := true, stored := none, storeAttempts := 0,
        aiCalled := false, backoffApplied := false }
    else
      store_and_settle m (get_message_retry_count env.approxReceiveCount)
        { create_placeholder_analysis m with bedrock_failure := true } false
        env.store1 env.store2
  else
    match env.bedrockOk with
    | some a =>
      store_and_settle m (get_message_retry_count env.approxReceiveCount)
        { a with bedrock_failure := false } true env.store1 env.store2
    | none =>
      store_and_settle m (get_message_retry_count env.approxReceiveCount)
        { create_placeholder_analysis m with bedrock_failure := true } true
        env.store1 env.store2

/-- One pass of the record loop in `bedrock_analyzer.lambda_handler`.  An
unparsable body raises before `message` is bound, so the generic `except`
arm re-queues the record; a parsed body is handled by
`processBedrockParsed`. -/
def processBedrockRecord (env : BRecordEnv) : BStep :=
  match env.parsed with
  | none =>
    { ack := false, requeued := true, stored := none, storeAttempts := 0,
      aiCalled := false, backoffApplied := false }
  | some m => processBedrockParsed env m

/-! ## Message Consumer (`email_sender.lambda_handler`,
`email_sender.get_message_retry_count`)

One pass of the record loop of the email sender.  `send_account_specific_email`
and `send_master_report_email` wrap their whole body in `try/except` and
return `False` on any internal exception, so from the handler's view a
delivery attempt yields a boolean; the handler's own `except` arm is reached
when `json.loads(record['body'])` or the `email_type` lookup raises, i.e.
when the body is unparsable. -/

structure ERecordEnv where
  parsed : Bool
  knownType : Bool
  approxReceiveCount : Option Nat
  sendSuccess : Bool
  deriving DecidableEq, Repr

structure EStep where
  ack : Bool
  requeued : Bool
  sendAttempted : Bool
  deriving DecidableEq, Repr

/-- One pass of the record loop in `email_sender.lambda_handler`: a retry
count at or above `max_retries = 3` acknowledges without attempting a send;
an unknown `email_type` counts as a failed delivery without a send call; a
failed delivery is re-queued only while the retry count is below
`max_retries - 1 = 2` and otherwise acknowledged; an exception before the
dispatch (unparsable body) is acknowledged from the `except` arm once the
retry count reaches `max_retries - 1 = 2`. -/
def processEmailRecord (env : ERecordEnv) : EStep :=
  if ¬ env.parsed then
    if get_message_retry_count env.approxReceiveCount ≥ 2 then
      { ack := true, requeued := false, sendAttempted := false }
    else
      { ack := false, requeued := true, sendAttempted := false }
  else if get_message_retry_count env.approxReceiveCount ≥ 3 then
    { ack := true, requeued := false, sendAttempted := false }
  else if (if env.knownType then env.sendSuccess else false) then
    { ack := true, requeued := false, sendAttempted := env.knownType }
  else if get_message_retry_count env.approxReceiveCount < 2 then
    { ack := false, requeued := true, sendAttempted := env.knownType }
  else
    { ack := true, requeued := false, sendAttempted := env.knownType }

/-! ## Account-to-email mapping
(`shared_utils.get_combined_account_email_mapping`)

Python dicts are modelled as insertion-ordered association lists with unique
keys; `pyDictSet` is dict assignment (overwrite in place, else append) and
`pyDictGet` is lookup.  Only the `account_to_email` dict and the
`mapping_sources` dict are modelled; the inverse `email_to_accounts` dict
that the source maintains alongside is not read by the checked property. -/

def pyDictGet : List (String × String) → String → Option String
  | [], _ => none
  | (k, v) :: rest, a => if k = a then some v else pyDictGet rest a

/-- Python dict assignment: an existing key (unique in a Python dict) keeps
its position and gets the new value; a fresh key is appended at the end. -/
def pyDictSet : List (String × String) → String → String → List (String × String)
  | [], k, v => [(k, v)]
  | (k0, v0) :: rest, k, v =>
    if k0 = k then (k, v) :: rest else (k0, v0) :: pyDictSet rest k v

/-- Body of the loop over the custom DynamoDB mapping entries in
`get_combined_account_email_mapping`, acting on the pair
`(combined_account_to_email, mapping_sources)`: an account already mapped to
a different email is marked `"combined"`, a new account `"custom"`, and an
account carrying the same email in both sources is kept as
`"organizations"`; the DynamoDB email is then written in all three cases. -/
def combine_custom_entry (acc : List (String × String) × List (String × String))
    (entry : String × String) : List (String × String) × List (String × String) :=
  match pyDictGet acc.1 entry.1 with
  | some old_email =>
    if old_email ≠ entry.2 then
      (pyDictSet acc.1 entry.1 entry.2, pyDictSet acc.2 entry.1 "combined")
    else
      (pyDictSet acc.1 entry.1 entry.2, pyDictSet acc.2 entry.1 "organizations")
  | none =>
    (pyDictSet acc.1 entry.1 entry.2, pyDictSet acc.2 entry.1 "custom")

/-- The seeding step of `get_combined_account_email_mapping`: when the
Organizations mapping is enabled and non-empty, it becomes the combined dict
and every one of its accounts is marked with source `"organizations"`. -/
def combined_base (use_org : Bool) (orgMap : List (String × String)) :
    List (String × String) × List (String × String) :=
  if use_org then
    if orgMap ≠ [] then
      (orgMap, orgMap.map (fun p => (p.1, "organizations")))
    else ([], [])
  else ([], [])

/-- The override step of `get_combined_account_email_mapping`: when the
custom DynamoDB mapping is enabled and non-empty, its entries are folded
over the seeded pair. -/
def combined_merged (use_org use_custom : Bool)
    (orgMap customMap : List (String × String)) :
    List (String × String) × List (String × String) :=
  if use_custom then
    if customMap ≠ [] then
      customMap.foldl combine_custom_entry (combined_base use_org orgMap)
    else combined_base use_org orgMap
  else combined_base use_org orgMap

/-- `get_combined_account_email_mapping`, restricted to the two dicts the
checked property reads: the seeded pair, overridden by the custom mapping;
an empty final combined dict makes the function return empty dicts across
the board. -/
def get_combined_account_email_mapping (use_org use_custom : Bool)
    (orgMap customMap : List (String × String)) :
    List (String × String) × List (String × String) :=
  if (combined_merged use_org use_custom orgMap customMap).1 ≠ [] then
    combined_merged use_org use_custom orgMap customMap
  else ([], [])

/-! ## Response normalization (`bedrock_analyzer.normalize_analysis_response`,
`create_fallback_analysis`)

The function reads and writes a fixed set of twelve keys of the analysis
dict (other keys pass through untouched), so the dict is modelled as a
record of `Option`-valued fields over a small Python value type. -/

inductive PVal where
  | pstr : String → PVal
  | pbool : Bool → PVal
  | pnull : PVal
  deriving DecidableEq, Repr

/-- Python `str()` on a modelled value. -/
def pvalStr : PVal → String
  | .pstr s => s
  | .pbool true => "True"
  | .pbool false => "False"
  | .pnull => "None"

/-- Python truthiness on a modelled value. -/
def pvalTruthy : PVal → Bool
  | .pstr s => s ≠ ""
  | .pbool b => b
  | .pnull => false

/-- Python `str.strip()` with no argument: drop leading and trailing
whitespace. -/
def pyStrip (s : String) : String :=
  ⟨((s.data.dropWhile Char.isWhitespace).reverse.dropWhile Char.isWhitespace).reverse⟩

/-- Python `str.upper()` over the modelled alphabet. -/
def pyUpper (s : String) : String :=
  ⟨s.data.map Char.toUpper⟩

/-- Python `str.title()` on the cased/uncased alphabet the model covers:
a letter is uppercased when it follows a non-letter and lowercased
otherwise. -/
def pyTitleAux : Bool → List Char → List Char
  | _, [] => []
  | prevAlpha, c :: cs =>
    if c.isAlpha then
      (if prevAlpha then c.toLower else c.toUpper) :: pyTitleAux true cs
    else
      c :: pyTitleAux false cs

def pyTitle (s : String) : String :=
  ⟨pyTitleAux false s.data⟩

structure PAnalysis where
  critical : Option PVal
  risk_level : Option PVal
  account_impact : Option PVal
  time_sensitivity : Option PVal
  risk_category : Option PVal
  required_actions : Option PVal
  impact_analysis : Option PVal
  consequences_if_ignored : Option PVal
  affected_resources : Option PVal
  key_date : Option PVal
  business_impact : Option PVal
  summary : Option PVal
  deriving DecidableEq, Repr

/-- The `defaults` pass of `normalize_analysis_response`: every missing key
receives its default value. -/
def apply_defaults (a : PAnalysis) : PAnalysis :=
  { critical := some (a.critical.getD (.pbool false))
    risk_level := some (a.risk_level.getD (.pstr "Low"))
    account_impact := some (a.account_impact.getD (.pstr "Low"))
    time_sensitivity := some (a.time_sensitivity.getD (.pstr "Routine"))
    risk_category := some (a.risk_category.getD (.pstr "Operational"))
    required_actions := some (a.required_actions.getD (.pstr "Review event details"))
    impact_analysis := some (a.impact_analysis.getD (.pstr "Impact assessment pending"))
    consequences_if_ignored := some (a.consequences_if_ignored.getD (.pstr "Unknown consequences"))
    affected_resources := some (a.affected_resources.getD (.pstr "Unknown resources"))
    key_date := some (a.key_date.getD .pnull)
    business_impact := some (a.business_impact.getD (.pstr "Business impact assessment pending"))
    summary := some (a.summary.getD (.pstr "Analysis summary pending")) }

/-- The risk-level normalization pass, guarded by `'risk_level' in analysis`
(here: the field is present): `str(...).strip().upper()` is compared against
the recognized spellings; `CRITICAL`/`SEVERE` also force the `critical` flag
to `True`; an unrecognized spelling is left untouched.  The `getD` default
is never read under the guard. -/
def normalize_risk_level (a : PAnalysis) : PAnalysis :=
  if a.risk_level.isSome then
    if pyUpper (pyStrip (pvalStr (a.risk_level.getD (.pstr "Low")))) = "CRITICAL" ∨
       pyUpper (pyStrip (pvalStr (a.risk_level.getD (.pstr "Low")))) = "SEVERE" then
      { a with risk_level := some (.pstr "Critical"), critical := some (.pbool true) }
    else if pyUpper (pyStrip (pvalStr (a.risk_level.getD (.pstr "Low")))) = "HIGH" then
      { a with risk_level := some (.pstr "High") }
    else if pyUpper (pyStrip (pvalStr (a.risk_level.getD (.pstr "Low")))) = "MEDIUM" ∨
            pyUpper (pyStrip (pvalStr (a.risk_level.getD (.pstr "Low")))) = "MODERATE" then
      { a with risk_level := some (.pstr "Medium") }
    else if pyUpper (pyStrip (pvalStr (a.risk_level.getD (.pstr "Low")))) = "LOW" then
      { a with risk_level := some (.pstr "Low") }
    else a
  else a

/-- The consistency pass: a truthy `critical` flag with a `risk_level` other
than `'Critical'` rewrites `risk_level` to `'Critical'`. -/
def enforce_critical_consistency (a : PAnalysis) : PAnalysis :=
  if pvalTruthy (a.critical.getD (.pbool false)) ∧ a.risk_level ≠ some (.pstr "Critical") then
    { a with risk_level := some (.pstr "Critical") }
  else a

/-- The time-sensitivity pass, guarded by `'time_sensitivity' in analysis`:
`str(...).strip().title()` must be one of `Critical`, `Urgent`, `Routine`,
else it is replaced by `'Routine'`. -/
def normalize_time_sensitivity (a : PAnalysis) : PAnalysis :=
  if a.time_sensitivity.isSome then
    if pyTitle (pyStrip (pvalStr (a.time_sensitivity.getD (.pstr "Routine")))) = "Critical" ∨
       pyTitle (pyStrip (pvalStr (a.time_sensitivity.getD (.pstr "Routine")))) = "Urgent" ∨
       pyTitle (pyStrip (pvalStr (a.time_sensitivity.getD (.pstr "Routine")))) = "Routine" then
      { a with
          time_sensitivity :=
            some (.pstr (pyTitle (pyStrip (pvalStr (a.time_sensitivity.getD (.pstr "Routine")))))) }
    else
      { a with time_sensitivity := some (.pstr "Routine") }
  else a

/-- `normalize_analysis_response` is the composition of its four passes in
source order. -/
def normalize_analysis_response (a : PAnalysis) : PAnalysis :=
  normalize_time_sensitivity (enforce_critical_consistency
    (normalize_risk_level (apply_defaults a)))

/-- `create_fallback_analysis`, restricted to the modelled keys (the raw
`analysis_text` and the `parsing_error` flag it also sets are not read by
the checked property). -/
def create_fallback_analysis : PAnalysis :=
  { critical := some (.pbool false)
    risk_level := some (.pstr "Medium")
    account_impact := some (.pstr "Medium")
    time_sensitivity := some (.pstr "Routine")
    risk_category := some (.pstr "Operational")
    required_actions := some (.pstr "Manual review required - automated analysis parsing failed")
    impact_analysis := some (.pstr "Impact analysis unavailable due to parsing failure - manual review required")
    consequences_if_ignored := some (.pstr "Consequences assessment unavailable - manual review required")
    affected_resources := some (.pstr "Resource identification unavailable - manual review required")
    key_date := some .pnull
    business_impact := some (.pstr "Business impact assessment unavailable due to parsing failure")
    summary := some (.pstr "Analysis parsing failed - manual review of health events required") }

/-! ## Theorems -/

/-- Helper: the defining equation of `check_bedrock_rate_limit` on an
existing limiter row. -/
theorem check_bedrock_rate_limit_some (st : RLState) (now : Nat) :
    check_bedrock_rate_limit (some st) now =
    if now - st.last_call_time ≥ 60 then
      (true, some { st with calls_this_minute := 0, last_call_time := now })
    else if st.calls_this_minute < st.max_calls_per_minute then
      (true, some { st with calls_this_minute := st.calls_this_minute + 1 })
    else
      (false, some st) := rfl

/-- Helper: within a window (every timestamp less than 60 seconds past
`last_call_time`, under truncating subtraction), the sequential simulation
allows at most the remaining quota `max_calls_per_minute -
calls_this_minute`. -/
theorem rl_simulate_window_bound :
    ∀ (ts : List Nat) (st : RLState),
    (∀ t ∈ ts, t - st.last_call_time < 60) →
    (rl_simulate (some st) ts).1 ≤ st.max_calls_per_minute - st.calls_this_minute := by
  intro ts
  induction ts with
  | nil => intro st _; simp [rl_simulate]
  | cons t ts ih =>
    intro st h
    have ht : t - st.last_call_time < 60 := h t (by simp)
    have hts : ∀ u ∈ ts, u - st.last_call_time < 60 :=
      fun u hu => h u (List.mem_cons_of_mem _ hu)
    have hne : ¬ (t - st.last_call_time ≥ 60) := by omega
    by_cases hc : st.calls_this_minute < st.max_calls_per_minute
    · have hrec := ih { st with calls_this_minute := st.calls_this_minute + 1 }
        (by simpa using hts)
      simp only [rl_simulate, check_bedrock_rate_limit_some, if_neg hne, if_pos hc,
        if_true] at hrec ⊢
      omega
    · have hrec := ih st hts
      simp only [rl_simulate, check_bedrock_rate_limit_some, if_neg hne, if_neg hc,
        Bool.false_eq_true, if_false] at hrec ⊢
      omega

/-- Helper: a denied call writes nothing back to the limiter row. -/
theorem check_rate_limit_deny_fix (s : RLState) (now : Nat)
    (h : (check_bedrock_rate_limit (some s) now).1 = false) :
    (check_bedrock_rate_limit (some s) now).2 = some s := by
  rw [check_bedrock_rate_limit_some] at h ⊢
  by_cases h1 : now - s.last_call_time ≥ 60
  · rw [if_pos h1] at h; exact absurd h (by simp)
  · rw [if_neg h1] at h ⊢
    by_cases h2 : s.calls_this_minute < s.max_calls_per_minute
    · rw [if_pos h2] at h; exact absurd h (by simp)
    · rw [if_neg h2]

/-- C4 (counterexample): the claim "at most `max_calls_per_window = k` calls
are allowed within any single rolling window" is false.  With ceiling
`k = 2` and four sequential calls all at timestamp 60 (hence all inside one
rolling window of length 60) from the row `⟨0, 0, 2⟩`, three calls are
allowed: the first call finds the stored window elapsed, resets the counter
to zero, and is allowed without being counted, after which two further calls
pass the `calls_this_minute < max_calls_per_minute` check. -/
theorem C4_counterexample_reset_call_uncounted :
    (rl_simulate (some ⟨0, 0, 2⟩) [60, 60, 60, 60]).1 = 3 ∧ ¬ (3 ≤ 2) := by
  decide

/-- C4 (amended): under sequential simulation, a call that triggers the
window reset is allowed without being counted, so the `k`-bound holds only
for the calls inside one window: for every starting row and every list of
call timestamps that all fall inside the row's current window, at most
`max_calls_per_window - calls_in_window` calls are allowed (hence at most
`k` from a freshly reset window, and at most `k + 1` per window counting the
resetting call itself); moreover a denied call leaves the limiter row
unchanged. -/
theorem C4_rate_limiter_window_bound (st : RLState) (ts : List Nat)
    (h : ∀ t ∈ ts, t - st.last_call_time < 60) :
    (rl_simulate (some st) ts).1 ≤ st.max_calls_per_minute - st.calls_this_minute ∧
    ∀ (s : RLState) (now : Nat), (check_bedrock_rate_limit (some s) now).1 = false →
      (check_bedrock_rate_limit (some s) now).2 = some s :=
  ⟨rl_simulate_window_bound ts st h, check_rate_limit_deny_fix⟩

/-- Witness for `C4_rate_limiter_window_bound` at the row `⟨0, 0, 2⟩` and
timestamps `[0, 0, 0]`. -/
theorem C4_rate_limiter_window_bound_witness :
    (∀ t ∈ ([0, 0, 0] : List Nat), t - (0 : Nat) < 60) ∧
    (rl_simulate (some ⟨0, 0, 2⟩) [0, 0, 0]).1 ≤ 2 - 0 :=
  ⟨by decide, (C4_rate_limiter_window_bound ⟨0, 0, 2⟩ [0, 0, 0] (by decide)).1⟩

/-- C5 (code bug): the backoff never lowers the ceiling.  The update
expression's `GREATEST` is rejected by DynamoDB, the raised error is
swallowed by the `except` arm, and every invocation of
`update_rate_limit_backoff` leaves the ceiling exactly as it was; at the
initial ceiling 20, after a throttle event the code leaves 20 in place where
the claim (and the expression's intent, `backoff_intended_update`) requires
the fixed decrement to 18. -/
theorem C5_backoff_never_changes_ceiling :
    (∀ m : Nat, update_rate_limit_backoff m = m) ∧
    update_rate_limit_backoff 20 = 20 ∧
    backoff_intended_update 20 = 18 :=
  ⟨fun _ => rfl, rfl, by decide⟩

/-- C2 (counterexample): the claim that marker rows never change whether
`check_workflow_completion` reports `all_complete` is false.  With
`total_accounts = 2` and a single per-account result row, adding the
`EMAIL_QUEUED_MARKER` row flips `all_complete` from `false` to `true`,
because `completed_count` is the plain length of everything
`get_workflow_results` returns. -/
theorem C2_counterexample_marker_row_counted :
    (check_workflow_completion "w" 2
      [⟨"w", "111111111111", some "team@example.com"⟩,
       ⟨"w", EMAIL_QUEUED_MARKER, none⟩]).all_complete = true ∧
    (check_workflow_completion "w" 2
      [⟨"w", "111111111111", some "team@example.com"⟩]).all_complete = false := by
  decide

/-- C2 (amended): the completion count compared against `total_accounts` is
the number of ALL rows stored under the workflow id — per-account result
rows plus marker rows such as the `EMAIL_QUEUED_MARKER` row — so
`all_complete` holds exactly when account rows and marker rows together
reach `total_accounts`, and marker rows do affect the verdict. -/
theorem C2_amended_count_includes_marker_rows (wf : String) (total : Nat)
    (table : List Item) :
    (check_workflow_completion wf total table).completed_count =
      ((get_workflow_results wf table).filter
        (fun it => it.account_id = EMAIL_QUEUED_MARKER)).length +
      ((get_workflow_results wf table).filter
        (fun it => ¬ (it.account_id = EMAIL_QUEUED_MARKER))).length ∧
    ((check_workflow_completion wf total table).all_complete = true ↔
      total ≤
        ((get_workflow_results wf table).filter
          (fun it => it.account_id = EMAIL_QUEUED_MARKER)).length +
        ((get_workflow_results wf table).filter
          (fun it => ¬ (it.account_id = EMAIL_QUEUED_MARKER))).length) := by
  have hlen : (get_workflow_results wf table).length =
      ((get_workflow_results wf table).filter
        (fun it => it.account_id = EMAIL_QUEUED_MARKER)).length +
      ((get_workflow_results wf table).filter
        (fun it => ¬ (it.account_id = EMAIL_QUEUED_MARKER))).length := by
    have h := List.length_eq_length_filter_add
      (l := get_workflow_results wf table)
      (fun it => decide (it.account_id = EMAIL_QUEUED_MARKER))
    simpa [decide_not] using h
  constructor
  · simpa [check_workflow_completion] using hlen
  · rw [← hlen]
    simp [check_workflow_completion, ge_iff_le]

/-- Helper: with the marker already present, one coordinator dispatch
invocation is a no-op returning the `already_queued` result. -/
theorem queue_email_notifications_marker_present (wf : String) (rs : List Item)
    (tm : Bool) (recips : List String) (s : QState) (h : s.markerPresent = true) :
    queue_email_notifications wf rs tm recips s =
      ({ total_emails_queued := 0, already_queued := true,
         race_condition_detected := false }, s) := by
  simp [queue_email_notifications, check_emails_already_queued, h]

/-- Helper: with the marker already present, any number of sequential
dispatch invocations return only `already_queued` results and leave the
state untouched. -/
theorem run_queue_invocations_marker_present (wf : String) (rs : List Item)
    (tm : Bool) (recips : List String) :
    ∀ (k : Nat) (s : QState), s.markerPresent = true →
    run_queue_invocations wf rs tm recips k s =
      (List.replicate k
        { total_emails_queued := 0, already_queued := true,
          race_condition_detected := false }, s) := by
  intro k
  induction k with
  | zero => intro s _; simp [run_queue_invocations]
  | succ k ih =>
    intro s h
    rw [run_queue_invocations, queue_email_notifications_marker_present wf rs tm recips s h]
    rw [ih s h]
    simp [List.replicate_succ]

/-- C1: starting from any state whose stored results have reached completion
and whose marker is absent, any number of sequential coordinator
invocations enqueue the notification message set exactly once: the first
invocation appends the full message set to the queue and writes the
`EMAIL_QUEUED_MARKER` (reporting no race), and each of the `k` later
invocations observes the marker, returns the `already_queued` result with
zero emails queued, and changes nothing. -/
theorem C1_dispatch_exactly_once (wf : String) (rs : List Item) (tm : Bool)
    (recips : List String) (s : QState) (k : Nat) (h : s.markerPresent = false) :
    run_queue_invocations wf rs tm recips (k + 1) s =
      ({ total_emails_queued := (notification_messages wf rs tm recips).length,
         already_queued := false, race_condition_detected := false } ::
       List.replicate k
         { total_emails_queued := 0, already_queued := true,
           race_condition_detected := false },
       { markerPresent := true,
         queue := s.queue ++ notification_messages wf rs tm recips }) := by
  have h1 : queue_email_notifications wf rs tm recips s =
      ({ total_emails_queued := (notification_messages wf rs tm recips).length,
         already_queued := false, race_condition_detected := false },
       { markerPresent := true,
         queue := s.queue ++ notification_messages wf rs tm recips }) := by
    simp [queue_email_notifications, check_emails_already_queued,
      mark_emails_as_queued, h]
  rw [run_queue_invocations, h1]
  rw [run_queue_invocations_marker_present wf rs tm recips k _ rfl]

/-- Witness for `C1_dispatch_exactly_once`: one result row, one default
recipient, three sequential invocations. -/
theorem C1_dispatch_exactly_once_witness :
    (⟨false, []⟩ : QState).markerPresent = false ∧
    run_queue_invocations "w" [⟨"w", "111111111111", some "team@example.com"⟩]
        false ["ops@example.com"] 3 ⟨false, []⟩ =
      ({ total_emails_queued :=
           (notification_messages "w" [⟨"w", "111111111111", some "team@example.com"⟩]
             false ["ops@example.com"]).length,
         already_queued := false, race_condition_detected := false } ::
       List.replicate 2
         { total_emails_queued := 0, already_queued := true,
           race_condition_detected := false },
       { markerPresent := true,
         queue := [] ++ notification_messages "w"
           [⟨"w", "111111111111", some "team@example.com"⟩] false ["ops@example.com"] }) :=
  ⟨rfl, C1_dispatch_exactly_once "w" [⟨"w", "111111111111", some "team@example.com"⟩]
    false ["ops@example.com"] ⟨false, []⟩ 2 rfl⟩

/-- C7: whenever the observed completed count is strictly below
`total_accounts`, the coordinator handler raises the distinguished
`IncompleteWorkflowException` (not a generic error) and performs no
dispatch: the state — queue contents and marker — is returned exactly as it
was. -/
theorem C7_incomplete_raises_distinguished (wf : String) (total : Nat)
    (table : List Item) (tm : Bool) (recips : List String) (s : QState)
    (h : (check_workflow_completion wf total table).completed_count < total) :
    email_manager_handler wf total table tm recips s = (.error .incompleteWorkflow, s) := by
  have hcount : ¬ ((get_workflow_results wf table).length ≥ total) := by
    simp only [check_workflow_completion] at h
    omega
  simp [email_manager_handler, check_workflow_completion, hcount]

/-- Witness for `C7_incomplete_raises_distinguished`: empty store,
`total_accounts = 1`. -/
theorem C7_incomplete_raises_distinguished_witness :
    (check_workflow_completion "w" 1 []).completed_count < 1 ∧
    email_manager_handler "w" 1 [] false [] ⟨false, []⟩ =
      (.error .incompleteWorkflow, ⟨false, []⟩) :=
  ⟨by decide, C7_incomplete_raises_distinguished "w" 1 [] false [] ⟨false, []⟩ (by decide)⟩

/-- Helper: every settled record attempted at least one store call, and when
the first store call succeeds the analysis handed in is exactly what is
persisted (and the record acknowledged). -/
theorem store_and_settle_attempted (m : BMsg) (retry : Nat) (a : AnalysisRes)
    (aiCalled : Bool) (s1 s2 : StoreOutcome) :
    1 ≤ (store_and_settle m retry a aiCalled s1 s2).storeAttempts ∧
    (s1 = .ok → store_and_settle m retry a aiCalled s1 s2 =
      { ack := true, requeued := false, stored := some a, storeAttempts := 1,
        aiCalled := aiCalled, backoffApplied := false }) := by
  cases s1 with
  | ok => simp [store_and_settle]
  | errThrottle =>
    refine ⟨?_, by simp⟩
    cases s2 <;> simp [store_and_settle] <;> split_ifs <;> simp
  | errClientOther =>
    refine ⟨?_, by simp⟩
    cases s2 <;> simp [store_and_settle]
  | errGeneric =>
    refine ⟨?_, by simp⟩
    cases s2 <;> simp [store_and_settle]

/-- Helper: with a parsed body, the loop body resolves to
`processBedrockParsed`. -/
theorem processBedrockRecord_parsed (env : BRecordEnv) (m : BMsg)
    (hp : env.parsed = some m) :
    processBedrockRecord env = processBedrockParsed env m := by
  unfold processBedrockRecord
  rw [hp]

/-- Helper: handling one record either ends without any store attempt and
without acknowledgement (unparsable body, or a rate-limit denial still
within the retry budget — both re-queued), or flows through
`store_and_settle` with the first store call being `env.store1`. -/
theorem processBedrockRecord_cases (env : BRecordEnv) :
    ((processBedrockRecord env).ack = false ∧
      (processBedrockRecord env).storeAttempts = 0) ∨
    (∃ (m : BMsg) (retry : Nat) (a : AnalysisRes) (aiCalled : Bool),
      processBedrockRecord env = store_and_settle m retry a aiCalled env.store1 env.store2) := by
  cases hp : env.parsed with
  | none =>
    left
    unfold processBedrockRecord
    rw [hp]
    exact ⟨rfl, rfl⟩
  | some m =>
    rw [processBedrockRecord_parsed env m hp]
    unfold processBedrockParsed
    by_cases h3 : get_message_retry_count env.approxReceiveCount ≥ 3
    · rw [if_pos h3]
      exact Or.inr ⟨m, _, _, _, rfl⟩
    · rw [if_neg h3]
      by_cases hr : env.rateAllow
      · rw [if_neg (by simp [hr])]
        cases hb : env.bedrockOk with
        | none => exact Or.inr ⟨m, _, _, _, rfl⟩
        | some a => exact Or.inr ⟨m, _, _, _, rfl⟩
      · rw [if_pos (by simp [hr])]
        by_cases h2 : get_message_retry_count env.approxReceiveCount < 2
        · rw [if_pos h2]
          exact Or.inl ⟨rfl, rfl⟩
        · rw [if_neg h2]
          exact Or.inr ⟨m, _, _, _, rfl⟩

/-- C3 (counterexample): the claim "receipt handle in the successful list
implies a Result Store write succeeded for that record" is false.  For a
parsable first-delivery record whose Bedrock analysis succeeds but both
store attempts raise generic errors, the handler appends the receipt handle
to the successful list (the source comments "Marked message as processed to
prevent infinite retry") although nothing was persisted. -/
theorem C3_counterexample_ack_without_persist :
    (processBedrockRecord
      { parsed := some ⟨"111111111111", "w", [], 0, none⟩,
        approxReceiveCount := some 1, rateAllow := true,
        bedrockOk := some ⟨"Low", false, false⟩,
        store1 := .errGeneric, store2 := .errGeneric }).ack = true ∧
    (processBedrockRecord
      { parsed := some ⟨"111111111111", "w", [], 0, none⟩,
        approxReceiveCount := some 1, rateAllow := true,
        bedrockOk := some ⟨"Low", false, false⟩,
        store1 := .errGeneric, store2 := .errGeneric }).stored = none := by
  decide

/-- C3 (amended): acknowledgement implies a Result Store write was attempted
during the handling of that record, and whenever the first store call
succeeds, acknowledgement implies that record's result was persisted; the
code deviates from the claim only by also acknowledging after the store
write (and its fallback) themselves failed, to prevent infinite retries. -/
theorem C3_ack_implies_store_attempt (env : BRecordEnv) :
    ((processBedrockRecord env).ack = true →
      1 ≤ (processBedrockRecord env).storeAttempts) ∧
    (env.store1 = .ok → (processBedrockRecord env).ack = true →
      (processBedrockRecord env).stored.isSome = true) := by
  rcases processBedrockRecord_cases env with ⟨hack, _⟩ | ⟨m, retry, a, aiCalled, heq⟩
  · constructor
    · intro h; rw [hack] at h; exact absurd h (by simp)
    · intro _ h; rw [hack] at h; exact absurd h (by simp)
  · constructor
    · intro _
      rw [heq]
      exact (store_and_settle_attempted m retry a aiCalled env.store1 env.store2).1
    · intro hok _
      rw [heq, (store_and_settle_attempted m retry a aiCalled env.store1 env.store2).2 hok]
      rfl

/-- Witness for `C3_ack_implies_store_attempt` at a record whose store
succeeds. -/
theorem C3_ack_implies_store_attempt_witness :
    ((⟨some ⟨"111111111111", "w", [], 0, none⟩, some 1, true,
        some ⟨"Low", false, false⟩, .ok, .ok⟩ : BRecordEnv).store1 = .ok) ∧
    ((processBedrockRecord ⟨some ⟨"111111111111", "w", [], 0, none⟩, some 1, true,
        some ⟨"Low", false, false⟩, .ok, .ok⟩).ack = true →
      (processBedrockRecord ⟨some ⟨"111111111111", "w", [], 0, none⟩, some 1, true,
        some ⟨"Low", false, false⟩, .ok, .ok⟩).stored.isSome = true) :=
  ⟨rfl, (C3_ack_implies_store_attempt _).2 rfl⟩

/-- C6: a parsable record whose redelivery count has reached
`max_retries = 3` and whose store write succeeds is handled without any AI
call: the rule-based placeholder (tagged `manual_review_required = true` and
`bedrock_failure = true`) is persisted, the receipt handle is acknowledged,
and the record is never placed in the partial-batch failure list. -/
theorem C6_retry_exhausted_placeholder (env : BRecordEnv) (m : BMsg)
    (hp : env.parsed = some m)
    (h3 : get_message_retry_count env.approxReceiveCount ≥ 3)
    (hs : env.store1 = .ok) :
    processBedrockRecord env =
      { ack := true, requeued := false,
        stored := some { create_placeholder_analysis m with bedrock_failure := true },
        storeAttempts := 1, aiCalled := false, backoffApplied := false } ∧
    (create_placeholder_analysis m).manual_review_required = true := by
  constructor
  · rw [processBedrockRecord_parsed env m hp]
    unfold processBedrockParsed
    rw [if_pos h3]
    exact (store_and_settle_attempted m _ _ false env.store1 env.store2).2 hs
  · simp [create_placeholder_analysis]

/-- Witness for `C6_retry_exhausted_placeholder`: a fourth delivery
(`ApproximateReceiveCount = 4`) of a record with one critical event. -/
theorem C6_retry_exhausted_placeholder_witness :
    (⟨some ⟨"111111111111", "w", ["critical"], 1, none⟩, some 4, true, none,
       .ok, .ok⟩ : BRecordEnv).parsed = some ⟨"111111111111", "w", ["critical"], 1, none⟩ ∧
    get_message_retry_count (some 4) ≥ 3 ∧
    processBedrockRecord ⟨some ⟨"111111111111", "w", ["critical"], 1, none⟩, some 4, true,
        none, .ok, .ok⟩ =
      { ack := true, requeued := false,
        stored := some { create_placeholder_analysis
          ⟨"111111111111", "w", ["critical"], 1, none⟩ with bedrock_failure := true },
        storeAttempts := 1, aiCalled := false, backoffApplied := false } :=
  ⟨rfl, by decide,
    (C6_retry_exhausted_placeholder _ _ rfl (by decide) rfl).1⟩

/-- C8: the Message Consumer acknowledges without further redelivery once
the redelivery count reaches `max_retries = 3`: a parsable message with
retry count at least 3 is acknowledged without any send attempt, and a
parsable message whose delivery attempt fails is re-queued exactly while its
retry count is below `max_retries - 1 = 2` and is otherwise acknowledged
(dropped). -/
theorem C8_email_retry_ceiling (env : ERecordEnv) :
    (env.parsed = true → get_message_retry_count env.approxReceiveCount ≥ 3 →
      processEmailRecord env =
        { ack := true, requeued := false, sendAttempted := false }) ∧
    (env.parsed = true → env.knownType = true → env.sendSuccess = false →
      get_message_retry_count env.approxReceiveCount < 3 →
      (get_message_retry_count env.approxReceiveCount < 2 →
        processEmailRecord env =
          { ack := false, requeued := true, sendAttempted := true }) ∧
      (get_message_retry_count env.approxReceiveCount ≥ 2 →
        processEmailRecord env =
          { ack := true, requeued := false, sendAttempted := true })) := by
  constructor
  · intro hp h3
    unfold processEmailRecord
    rw [if_neg (by simp [hp]), if_pos h3]
  · intro hp hk hs h3
    constructor
    · intro h2
      unfold processEmailRecord
      rw [if_neg (by simp [hp]), if_neg (by omega), if_neg (by simp [hk, hs]),
        if_pos h2, hk]
    · intro h2
      unfold processEmailRecord
      rw [if_neg (by simp [hp]), if_neg (by omega), if_neg (by simp [hk, hs]),
        if_neg (by omega), hk]

/-- Witness for `C8_email_retry_ceiling`: a fourth delivery is acknowledged
without a send attempt, and a failed first delivery is re-queued. -/
theorem C8_email_retry_ceiling_witness :
    processEmailRecord ⟨true, true, some 4, false⟩ =
      { ack := true, requeued := false, sendAttempted := false } ∧
    processEmailRecord ⟨true, true, some 1, false⟩ =
      { ack := false, requeued := true, sendAttempted := true } :=
  ⟨(C8_email_retry_ceiling ⟨true, true, some 4, false⟩).1 rfl (by decide),
   ((C8_email_retry_ceiling ⟨true, true, some 1, false⟩).2 rfl rfl rfl
      (by decide)).1 (by decide)⟩

/-- Helper: reading back the key just assigned yields the assigned value. -/
theorem pyDictGet_set_self (k v : String) :
    ∀ m, pyDictGet (pyDictSet m k v) k = some v := by
  intro m
  induction m with
  | nil => simp [pyDictSet, pyDictGet]
  | cons p rest ih =>
    obtain ⟨k0, v0⟩ := p
    by_cases h : k0 = k
    · simp [pyDictSet, h, pyDictGet]
    · simp [pyDictSet, h, pyDictGet, ih]

/-- Helper: assigning one key leaves every other key's value unchanged. -/
theorem pyDictGet_set_ne (k v a : String) (h : k ≠ a) :
    ∀ m, pyDictGet (pyDictSet m k v) a = pyDictGet m a := by
  intro m
  induction m with
  | nil => simp [pyDictSet, pyDictGet, h]
  | cons p rest ih =>
    obtain ⟨k0, v0⟩ := p
    by_cases h0 : k0 = k
    · subst h0
      simp [pyDictSet, pyDictGet, h]
    · by_cases ha : k0 = a
      · simp [pyDictSet, h0, pyDictGet, ha, Ne.symm h]
      · simp [pyDictSet, h0, pyDictGet, ha, ih]

/-- Helper: relabelling every value of a dict relabels the looked-up value. -/
theorem pyDictGet_map_label (label a : String) :
    ∀ m, pyDictGet (m.map (fun p => (p.1, label))) a =
      Option.map (fun _ => label) (pyDictGet m a) := by
  intro m
  induction m with
  | nil => rfl
  | cons p rest ih =>
    obtain ⟨k, v⟩ := p
    by_cases h : k = a <;> simp [pyDictGet, h, ih]

/-- Helper: a successful lookup splits the dict at the first binding of the
key, with no earlier binding of that key. -/
theorem pyDictGet_decomp :
    ∀ (m : List (String × String)) (a e : String), pyDictGet m a = some e →
    ∃ l1 l2, m = l1 ++ (a, e) :: l2 ∧ ∀ p ∈ l1, p.1 ≠ a := by
  intro m
  induction m with
  | nil => intro a e h; exact absurd h (by simp [pyDictGet])
  | cons p rest ih =>
    intro a e h
    obtain ⟨k, v⟩ := p
    by_cases hk : k = a
    · subst hk
      rw [pyDictGet, if_pos rfl] at h
      obtain rfl : v = e := by injection h
      exact ⟨[], rest, by simp, by simp⟩
    · rw [pyDictGet, if_neg hk] at h
      obtain ⟨l1, l2, hm, hl1⟩ := ih a e h
      refine ⟨(k, v) :: l1, l2, by simp [hm], ?_⟩
      intro q hq
      rcases List.mem_cons.mp hq with rfl | hq2
      · exact hk
      · exact hl1 q hq2

/-- Helper: processing a custom entry for a different account never changes
what the two dicts say about this account. -/
theorem combine_custom_entry_other
    (acc : List (String × String) × List (String × String))
    (p : String × String) (a : String) (h : p.1 ≠ a) :
    pyDictGet (combine_custom_entry acc p).1 a = pyDictGet acc.1 a ∧
    pyDictGet (combine_custom_entry acc p).2 a = pyDictGet acc.2 a := by
  have hc := pyDictGet_set_ne p.1 p.2 a h
  have hs1 := pyDictGet_set_ne p.1 "combined" a h
  have hs2 := pyDictGet_set_ne p.1 "organizations" a h
  have hs3 := pyDictGet_set_ne p.1 "custom" a h
  cases hg : pyDictGet acc.1 p.1 with
  | some o =>
    by_cases he : o ≠ p.2
    · simp [combine_custom_entry, hg, he, hc, hs1]
    · simp [combine_custom_entry, hg, he, hc, hs2]
  | none => simp [combine_custom_entry, hg, hc, hs3]

/-- Helper: folding custom entries whose accounts all differ from this
account leaves both dicts' answers for this account unchanged. -/
theorem combine_fold_other (a : String) :
    ∀ (l : List (String × String))
      (acc : List (String × String) × List (String × String)),
    (∀ p ∈ l, p.1 ≠ a) →
    pyDictGet (l.foldl combine_custom_entry acc).1 a = pyDictGet acc.1 a ∧
    pyDictGet (l.foldl combine_custom_entry acc).2 a = pyDictGet acc.2 a := by
  intro l
  induction l with
  | nil => intro acc _; exact ⟨rfl, rfl⟩
  | cons p rest ih =>
    intro acc h
    have hp : p.1 ≠ a := h p (by simp)
    have hrest : ∀ q ∈ rest, q.1 ≠ a := fun q hq => h q (List.mem_cons_of_mem _ hq)
    rw [List.foldl_cons]
    have h1 := ih (combine_custom_entry acc p) hrest
    have h2 := combine_custom_entry_other acc p a hp
    exact ⟨h1.1.trans h2.1, h1.2.trans h2.2⟩

/-- C9: an account mapped to the same email by both the Organizations source
and the custom DynamoDB source (both enabled) ends up with mapping source
`"organizations"` — not `"custom"` or `"combined"` — while the combined
email for the account is the DynamoDB-supplied value (identical here to the
Organizations one). -/
theorem C9_same_email_kept_as_organizations
    (orgMap customMap : List (String × String)) (a e : String)
    (horg : pyDictGet orgMap a = some e)
    (hcustom : pyDictGet customMap a = some e)
    (hnodup : (customMap.map Prod.fst).Nodup) :
    pyDictGet (get_combined_account_email_mapping true true orgMap customMap).1 a
      = some e ∧
    pyDictGet (get_combined_account_email_mapping true true orgMap customMap).2 a
      = some "organizations" := by
  have horgne : orgMap ≠ [] := by
    intro hnil; rw [hnil] at horg; exact absurd horg (by simp [pyDictGet])
  have hcustne : customMap ≠ [] := by
    intro hnil; rw [hnil] at hcustom; exact absurd hcustom (by simp [pyDictGet])
  obtain ⟨l1, l2, hm, hl1⟩ := pyDictGet_decomp customMap a e hcustom
  have hl2 : ∀ p ∈ l2, p.1 ≠ a := by
    intro p hp hpa
    rw [hm, List.map_append, List.map_cons] at hnodup
    have hr := hnodup.of_append_right
    rw [List.nodup_cons] at hr
    have hmem : p.1 ∈ l2.map Prod.fst := List.mem_map_of_mem Prod.fst hp
    rw [hpa] at hmem
    exact hr.1 hmem
  have hbase : combined_base true orgMap =
      (orgMap, orgMap.map (fun p => (p.1, "organizations"))) := by
    simp [combined_base, horgne]
  have hmerged : combined_merged true true orgMap customMap =
      customMap.foldl combine_custom_entry (combined_base true orgMap) := by
    simp [combined_merged, hcustne]
  have hL1 := combine_fold_other a l1 (combined_base true orgMap) hl1
  have hL1c : pyDictGet (l1.foldl combine_custom_entry (combined_base true orgMap)).1 a
      = some e := by
    rw [hL1.1, hbase]; exact horg
  have hL1s : pyDictGet (l1.foldl combine_custom_entry (combined_base true orgMap)).2 a
      = some "organizations" := by
    rw [hL1.2, hbase]
    show pyDictGet (orgMap.map (fun p => (p.1, "organizations"))) a = _
    rw [pyDictGet_map_label "organizations" a orgMap, horg]
    rfl
  have hstep : combine_custom_entry
      (l1.foldl combine_custom_entry (combined_base true orgMap)) (a, e) =
      (pyDictSet (l1.foldl combine_custom_entry (combined_base true orgMap)).1 a e,
       pyDictSet (l1.foldl combine_custom_entry (combined_base true orgMap)).2 a
         "organizations") := by
    simp only [combine_custom_entry, hL1c]
    simp
  have hfold : combined_merged true true orgMap customMap =
      l2.foldl combine_custom_entry (combine_custom_entry
        (l1.foldl combine_custom_entry (combined_base true orgMap)) (a, e)) := by
    rw [hmerged, hm, List.foldl_append, List.foldl_cons]
  have hL2 := combine_fold_other a l2 (combine_custom_entry
    (l1.foldl combine_custom_entry (combined_base true orgMap)) (a, e)) hl2
  have hfc : pyDictGet (combined_merged true true orgMap customMap).1 a = some e := by
    rw [hfold, hL2.1, hstep]
    exact pyDictGet_set_self a e _
  have hfs : pyDictGet (combined_merged true true orgMap customMap).2 a
      = some "organizations" := by
    rw [hfold, hL2.2, hstep]
    exact pyDictGet_set_self a "organizations" _
  have hne : (combined_merged true true orgMap customMap).1 ≠ [] := by
    intro hnil; rw [hnil] at hfc; exact absurd hfc (by simp [pyDictGet])
  unfold get_combined_account_email_mapping
  rw [if_pos hne]
  exact ⟨hfc, hfs⟩

/-- Witness for `C9_same_email_kept_as_organizations`: one account mapped to
the same address by both sources. -/
theorem C9_same_email_kept_as_organizations_witness :
    pyDictGet (get_combined_account_email_mapping true true
      [("111111111111", "team@example.com")]
      [("111111111111", "team@example.com")]).1 "111111111111"
      = some "team@example.com" ∧
    pyDictGet (get_combined_account_email_mapping true true
      [("111111111111", "team@example.com")]
      [("111111111111", "team@example.com")]).2 "111111111111"
      = some "organizations" :=
  C9_same_email_kept_as_organizations
    [("111111111111", "team@example.com")] [("111111111111", "team@example.com")]
    "111111111111" "team@example.com" (by simp [pyDictGet]) (by simp [pyDictGet])
    (by simp)

/-- Helper: the risk-level pass only rewrites `risk_level` and `critical`,
preserves their presence, and sets the `critical` flag whenever the present
risk level reads `CRITICAL` or `SEVERE` after strip/upper. -/
theorem normalize_risk_level_spec (b : PAnalysis) :
    ∃ rl c, normalize_risk_level b = { b with risk_level := rl, critical := c } ∧
      (b.risk_level.isSome = true → rl.isSome = true) ∧
      (b.critical.isSome = true → c.isSome = true) ∧
      (b.risk_level.isSome = true →
        (pyUpper (pyStrip (pvalStr (b.risk_level.getD (.pstr "Low")))) = "CRITICAL" ∨
         pyUpper (pyStrip (pvalStr (b.risk_level.getD (.pstr "Low")))) = "SEVERE") →
        c = some (.pbool true)) := by
  unfold normalize_risk_level
  split_ifs with h0 h1 h2 h3 h4
  · exact ⟨some (.pstr "Critical"), some (.pbool true), rfl,
      fun _ => rfl, fun _ => rfl, fun _ _ => rfl⟩
  · exact ⟨some (.pstr "High"), b.critical, rfl, fun _ => rfl, fun h => h,
      fun _ hc => absurd hc h1⟩
  · exact ⟨some (.pstr "Medium"), b.critical, rfl, fun _ => rfl, fun h => h,
      fun _ hc => absurd hc h1⟩
  · exact ⟨some (.pstr "Low"), b.critical, rfl, fun _ => rfl, fun h => h,
      fun _ hc => absurd hc h1⟩
  · exact ⟨b.risk_level, b.critical, rfl, fun h => h, fun h => h,
      fun _ hc => absurd hc h1⟩
  · exact ⟨b.risk_level, b.critical, rfl, fun h => absurd h h0, fun h => h,
      fun h _ => absurd h h0⟩

/-- Helper: the consistency pass only rewrites `risk_level`, preserves its
presence, and guarantees that a `critical = True` flag ends with
`risk_level = 'Critical'`. -/
theorem enforce_critical_spec (b : PAnalysis) :
    ∃ rl, enforce_critical_consistency b = { b with risk_level := rl } ∧
      (b.risk_level.isSome = true → rl.isSome = true) ∧
      (b.critical = some (.pbool true) → rl = some (.pstr "Critical")) := by
  unfold enforce_critical_consistency
  split_ifs with h
  · exact ⟨some (.pstr "Critical"), rfl, fun _ => rfl, fun _ => rfl⟩
  · refine ⟨b.risk_level, rfl, fun h2 => h2, ?_⟩
    intro hc
    rcases not_and_or.mp h with h5 | h5
    · exfalso
      apply h5
      rw [hc]
      rfl
    · exact not_not.mp h5

/-- Helper: the time-sensitivity pass only rewrites `time_sensitivity`, and
a present value always ends as one of the three recognized spellings. -/
theorem normalize_time_spec (b : PAnalysis) :
    ∃ t, normalize_time_sensitivity b = { b with time_sensitivity := t } ∧
      (b.time_sensitivity.isSome = true →
        (t = some (.pstr "Critical") ∨ t = some (.pstr "Urgent") ∨
         t = some (.pstr "Routine"))) := by
  unfold normalize_time_sensitivity
  split_ifs with h0 h1
  · refine ⟨some (.pstr (pyTitle (pyStrip (pvalStr
      (b.time_sensitivity.getD (.pstr "Routine")))))), rfl, fun _ => ?_⟩
    rcases h1 with h | h | h
    · exact Or.inl (by rw [h])
    · exact Or.inr (Or.inl (by rw [h]))
    · exact Or.inr (Or.inr (by rw [h]))
  · exact ⟨some (.pstr "Routine"), rfl, fun _ => Or.inr (Or.inr rfl)⟩
  · exact ⟨b.time_sensitivity, rfl, fun h => absurd h h0⟩

/-- C10: for every input dictionary, `normalize_analysis_response` returns a
dictionary carrying every required analysis field; its `time_sensitivity` is
one of `Critical`, `Urgent`, `Routine`; a `critical` flag of `True` forces
`risk_level = 'Critical'`; a recognized input risk level of
`Critical`/`Severe` forces `critical = True`.  The fixed fallback dictionary
(`create_fallback_analysis`), through which the remaining parser path
returns, satisfies the same field invariants. -/
theorem C10_normalize_invariants (a : PAnalysis) :
    ((normalize_analysis_response a).critical.isSome = true ∧
     (normalize_analysis_response a).risk_level.isSome = true ∧
     (normalize_analysis_response a).account_impact.isSome = true ∧
     (normalize_analysis_response a).time_sensitivity.isSome = true ∧
     (normalize_analysis_response a).risk_category.isSome = true ∧
     (normalize_analysis_response a).required_actions.isSome = true ∧
     (normalize_analysis_response a).impact_analysis.isSome = true ∧
     (normalize_analysis_response a).consequences_if_ignored.isSome = true ∧
     (normalize_analysis_response a).affected_resources.isSome = true ∧
     (normalize_analysis_response a).key_date.isSome = true ∧
     (normalize_analysis_response a).business_impact.isSome = true ∧
     (normalize_analysis_response a).summary.isSome = true) ∧
    ((normalize_analysis_response a).time_sensitivity = some (.pstr "Critical") ∨
     (normalize_analysis_response a).time_sensitivity = some (.pstr "Urgent") ∨
     (normalize_analysis_response a).time_sensitivity = some (.pstr "Routine")) ∧
    ((normalize_analysis_response a).critical = some (.pbool true) →
      (normalize_analysis_response a).risk_level = some (.pstr "Critical")) ∧
    ((pyUpper (pyStrip (pvalStr (a.risk_level.getD (.pstr "Low")))) = "CRITICAL" ∨
      pyUpper (pyStrip (pvalStr (a.risk_level.getD (.pstr "Low")))) = "SEVERE") →
      (normalize_analysis_response a).critical = some (.pbool true)) ∧
    (create_fallback_analysis.critical = some (.pbool false) ∧
     create_fallback_analysis.risk_level = some (.pstr "Medium") ∧
     create_fallback_analysis.time_sensitivity = some (.pstr "Routine")) := by
  obtain ⟨rl1, c1, he1, hr1, hc1, hrec⟩ := normalize_risk_level_spec (apply_defaults a)
  obtain ⟨rl2, he2, hr2, hcrit⟩ :=
    enforce_critical_spec { apply_defaults a with risk_level := rl1, critical := c1 }
  obtain ⟨t3, he3, ht3⟩ := normalize_time_spec
    { { apply_defaults a with risk_level := rl1, critical := c1 } with risk_level := rl2 }
  have heq : normalize_analysis_response a =
      { { { apply_defaults a with risk_level := rl1, critical := c1 } with
            risk_level := rl2 } with time_sensitivity := t3 } := by
    unfold normalize_analysis_response
    rw [he1, he2, he3]
  rw [heq]
  have htd := ht3 rfl
  refine ⟨⟨hc1 rfl, hr2 (hr1 rfl), rfl, ?_, rfl, rfl, rfl, rfl, rfl, rfl, rfl, rfl⟩,
    htd, hcrit, fun h => hrec rfl h, rfl, rfl, rfl⟩
  rcases htd with h | h | h <;> rw [h] <;> rfl

/-- Witness for `C10_normalize_invariants`: an input whose risk level reads
`" severe "` and whose time sensitivity reads `"urgent"`. -/
theorem C10_normalize_invariants_witness :
    (normalize_analysis_response
      ⟨none, some (.pstr " severe "), none, some (.pstr "urgent"), none, none,
       none, none, none, none, none, none⟩).critical = some (.pbool true) ∧
    (normalize_analysis_response
      ⟨none, some (.pstr " severe "), none, some (.pstr "urgent"), none, none,
       none, none, none, none, none, none⟩).risk_level = some (.pstr "Critical") := by
  have h := C10_normalize_invariants
    ⟨none, some (.pstr " severe "), none, some (.pstr "urgent"), none, none,
     none, none, none, none, none, none⟩
  have hc := h.2.2.2.1 (Or.inr (by decide))
  exact ⟨hc, h.2.2.1 hc⟩

end HealthEvents
